import Mathlib

/-!
Shallow embedding of the MagnumStream DaVinci Resolve automation
(src/Davinci.py) for checking the natural-language specification.

The external application (DaVinci Resolve) is modelled as an environment
record: every query the Python code makes against the scripting API
(file existence, media import success, the per-call timeline item list,
capability probes via hasattr, and the Bool results the API returns) is a
field of the environment or of the queried item.  The Python functions
are then translated as pure Lean functions of that environment.
-/

/-- Result of querying a media-pool item through the scripting API.
The hasXxx fields model the hasattr capability probes in the code; the
xxxResult fields model the Bool the corresponding API call returns.
usedByOtherSlots is an observation about the template that the Python
code never queries: whether this pool asset also backs slots other than
the one being processed (spec section 4.4, strategy 3). -/
structure MediaPoolItem where
  hasReplaceClip : Bool
  replaceClipResult : Bool
  hasSetClipProperty : Bool
  setClipPropertyResult : Bool
  usedByOtherSlots : Bool
deriving DecidableEq

/-- A live timeline item as observable through the scripting API.
GetStart and GetEnd may return None for invalidated references
(src/Davinci.py lines 559-566), hence Option Int. The capability and
result fields model the replacement-method probes and API returns of
lines 583-667; GetTakesCount and FinalizeTake only affect logging so
they are not modelled. -/
structure TimelineItem where
  getStart : Option Int
  getEnd : Option Int
  hasReplaceClip : Bool
  replaceClipResult : Bool
  hasAddTake : Bool
  addTakeResult : Bool
  hasSelectTakeByIndex : Bool
  selectTakeByIndexResult : Bool
  getMediaPoolItem : Option MediaPoolItem
deriving DecidableEq

/-- One unit of replacement media from the job description (spec section 3).
Only the fields the replacement logic reads are kept; duration is used
solely for logging and the disabled Phase 2, so it is omitted. -/
structure ClipRecord where
  filename : String
  fullPath : String
deriving DecidableEq

/-- Static configuration entry: track and start frame for a slot
(src/Davinci.py CLIP_POSITIONS values). -/
structure SlotPosition where
  track : Int
  start_frame : Int
deriving DecidableEq

/-- The static CLIP_POSITIONS table of src/Davinci.py lines 102-122:
14 slots, all on video track 3, at hand-calibrated start frames. -/
def CLIP_POSITIONS : List (Nat × SlotPosition) :=
  [ (1,  ⟨3, 86485⟩),
    (2,  ⟨3, 86549⟩),
    (3,  ⟨3, 86578⟩),
    (4,  ⟨3, 86631⟩),
    (5,  ⟨3, 86654⟩),
    (6,  ⟨3, 86790⟩),
    (7,  ⟨3, 86844⟩),
    (8,  ⟨3, 86905⟩),
    (9,  ⟨3, 86927⟩),
    (10, ⟨3, 87035⟩),
    (11, ⟨3, 87106⟩),
    (12, ⟨3, 87142⟩),
    (13, ⟨3, 87216⟩),
    (14, ⟨3, 87353⟩) ]

/-- Dictionary lookup slot_number in CLIP_POSITIONS
(src/Davinci.py line 542 and 546). -/
def lookupPosition (slot : Nat) : Option SlotPosition :=
  (CLIP_POSITIONS.find? (fun p => p.1 == slot)).map (·.2)

/-- The match test of src/Davinci.py line 569: the item starts at the
target frame, or contains it.  Items whose GetStart or GetEnd is None
are skipped (lines 564-566), so they never match. -/
def itemMatches (start_frame : Int) (item : TimelineItem) : Bool :=
  match item.getStart, item.getEnd with
  | some s, some e => s == start_frame || (s ≤ start_frame && start_frame < e)
  | _, _ => false

/-- The target-item scan of src/Davinci.py lines 557-572: walk the live
item list in order, skip items with None start or end, and break at the
first item that starts at or contains the target frame. -/
def findTargetItem (start_frame : Int) : List TimelineItem → Option TimelineItem
  | [] => none
  | item :: rest =>
    if itemMatches start_frame item then some item
    else findTargetItem start_frame rest

/-- Which replacement strategies were actually invoked against the API. -/
inductive Strategy
  | replaceClip
  | addTake
  | sourceSwap
  | setClipProperty
deriving DecidableEq

/-- Result of the per-slot fallback chain: whether the slot counts as
replaced, and which mutating API calls were attempted, in order. -/
structure AttemptResult where
  replaced : Bool
  attempted : List Strategy
deriving DecidableEq

/-- The fallback chain of src/Davinci.py lines 578-667 for one resolved
timeline item.  Method 1: ReplaceClip on the timeline item (lines
583-596).  Method 2: AddTake plus SelectTakeByIndex (lines 599-630);
it counts as replaced only when AddTake returns True, SelectTakeByIndex
exists and returns True.  Method 3: if still not replaced, fetch the
underlying media-pool item and repoint it, first via ReplaceClip on the
pool item (lines 644-651), then via SetClipProperty (lines 654-663).
No condition other than the hasattr probes guards Method 3. -/
def attemptStrategies (item : TimelineItem) : AttemptResult :=
  let r1 := item.hasReplaceClip && item.replaceClipResult
  let a1 := if item.hasReplaceClip then [Strategy.replaceClip] else []
  let try2 := !r1 && item.hasAddTake
  let r2 := try2 && item.addTakeResult && item.hasSelectTakeByIndex
              && item.selectTakeByIndexResult
  let a2 := if try2 then [Strategy.addTake] else []
  let r12 := r1 || r2
  match item.getMediaPoolItem, r12 with
  | some pm, false =>
    let a3 := if pm.hasReplaceClip then [Strategy.sourceSwap] else []
    let r3 := pm.hasReplaceClip && pm.replaceClipResult
    let try3b := !r3 && pm.hasSetClipProperty
    let a3b := if try3b then [Strategy.setClipProperty] else []
    let r3b := try3b && pm.setClipPropertyResult
    { replaced := r3 || r3b, attempted := a1 ++ a2 ++ a3 ++ a3b }
  | _, _ => { replaced := r12, attempted := a1 ++ a2 }

/-- True when Method 3 (repointing the media-pool asset to the new file
path, by either ReplaceClip on the pool item or SetClipProperty) was
actually executed for this item. -/
def sourceSwapAttempted (item : TimelineItem) : Bool :=
  (attemptStrategies item).attempted.contains Strategy.sourceSwap
    || (attemptStrategies item).attempted.contains Strategy.setClipProperty

/-- Whether Method 1 or Method 2 already replaced the item. -/
def succeededM12 (item : TimelineItem) : Bool :=
  (item.hasReplaceClip && item.replaceClipResult)
    || (!(item.hasReplaceClip && item.replaceClipResult) && item.hasAddTake
          && item.addTakeResult && item.hasSelectTakeByIndex
          && item.selectTakeByIndexResult)

/-- Environment: every answer the external world gives the program,
in the order the program asks.  fetchTimeline n t is the list returned
by the n-th GetItemListInTrack call made inside
_replace_clips_from_project on track t: call 0 is the one-time fetch of
line 519, call n+1 is the per-slot refetch of line 554 for the n-th
positioned slot.  verifyItems is the list returned by the separate
GetItemListInTrack call inside _verify_template_integrity (line 317). -/
structure ResolveEnv where
  fsExists : String → Bool
  importOk : String → Bool
  fetchTimeline : Nat → Int → List TimelineItem
  verifyItems : List TimelineItem
  loadOk : Bool
  saveOk : Bool
  renderResult : Option String

/-- The media-import loop of src/Davinci.py lines 476-509: iterate the
job clips in their dictionary (insertion) order; a slot enters
media_items exactly when its file exists on disk and ImportMedia
returns a non-empty list.  Slots whose file is missing are skipped with
a warning (lines 480-483); slots whose import fails are skipped
silently. -/
def importClips (env : ResolveEnv) : List (Nat × ClipRecord) → List (Nat × ClipRecord)
  | [] => []
  | (slot, clip) :: rest =>
    if env.fsExists clip.fullPath then
      if env.importOk clip.fullPath then (slot, clip) :: importClips env rest
      else importClips env rest
    else importClips env rest

/-- Per-slot outcome of the replacement loop (spec section 3,
ReplacementOutcome). -/
inductive SlotOutcome
  | replacedOk (slot : Nat)
  | noPosition (slot : Nat)
  | positionMissing (slot : Nat)
  | replaceFailed (slot : Nat)
deriving DecidableEq

/-- The slot a per-slot outcome is about. -/
def outcomeSlot : SlotOutcome → Nat
  | .replacedOk s => s
  | .noPosition s => s
  | .positionMissing s => s
  | .replaceFailed s => s

/-- The replacement loop of src/Davinci.py lines 539-680: iterate
media_items in order; skip slots absent from CLIP_POSITIONS (lines
542-544); otherwise refetch the live timeline item list (line 554,
modelled as fetch k where k counts the refetches so far, starting at 1
because fetch 0 is the pre-loop fetch of line 519), scan it for the
target item, skip the slot if none is found (lines 574-576), and
otherwise run the fallback chain; the slot joins replaced_slots exactly
when some strategy reports success. -/
def replaceLoop (fetch : Nat → Int → List TimelineItem) :
    Nat → List (Nat × ClipRecord) → List SlotOutcome
  | _, [] => []
  | k, (slot, _clip) :: rest =>
    match lookupPosition slot with
    | none => .noPosition slot :: replaceLoop fetch k rest
    | some pos =>
      let items := fetch k pos.track
      match findTargetItem pos.start_frame items with
      | none => .positionMissing slot :: replaceLoop fetch (k + 1) rest
      | some item =>
        if (attemptStrategies item).replaced
        then .replacedOk slot :: replaceLoop fetch (k + 1) rest
        else .replaceFailed slot :: replaceLoop fetch (k + 1) rest

/-- The replaced_slots list accumulated by the loop. -/
def replacedSlots (outs : List SlotOutcome) : List Nat :=
  outs.filterMap fun o =>
    match o with
    | .replacedOk s => some s
    | _ => none

/-- Aggregate result of _replace_clips_from_project. -/
structure ReplaceOutcome where
  media_items : List (Nat × ClipRecord)
  outcomes : List SlotOutcome
  success : Bool
deriving DecidableEq

/-- src/Davinci.py _replace_clips_from_project, lines 462-752: import
the media, run the replacement loop, then gate (lines 740-752): fail
exactly when fewer slots were replaced than media items were imported.
The pre-loop fetch of line 519 (fetch 0) is used only for logging and
to build the position_to_item map, which the loop never reads. -/
def replace_clips_from_project (env : ResolveEnv) (clips : List (Nat × ClipRecord)) :
    ReplaceOutcome :=
  let media_items := importClips env clips
  let outs := replaceLoop env.fetchTimeline 1 media_items
  let replaced_slots := replacedSlots outs
  { media_items := media_items
    outcomes := outs
    success := if replaced_slots.length < media_items.length then false else true }

/-- The set of start frames found on the track
(src/Davinci.py lines 326-330): GetStart of each item, None dropped. -/
def actual_frames (items : List TimelineItem) : Finset Int :=
  (items.filterMap TimelineItem.getStart).toFinset

/-- The set of expected start frames from the static table
(src/Davinci.py line 333). -/
def expected_frames : Finset Int :=
  (CLIP_POSITIONS.map (fun p => p.2.start_frame)).toFinset

/-- src/Davinci.py _verify_template_integrity, lines 311-356: fail when
the track has no items at all (line 319-321); otherwise compute
missing = expected minus actual; on any missing frame, log the slots
whose configured frame is missing (in table order) and fail; extra
frames only produce a warning.  Returns (pass, logged missing slots). -/
def verify_template_integrity (items : List TimelineItem) : Bool × List Nat :=
  if items.isEmpty then (false, [])
  else
    let missing := expected_frames \ actual_frames items
    if missing = (∅ : Finset Int) then (true, [])
    else
      (false, CLIP_POSITIONS.filterMap fun p =>
        if p.2.start_frame ∈ missing then some p.1 else none)

/-- The externally visible operations process_job can invoke, in
invocation order (src/Davinci.py lines 221-243). -/
inductive JobStep
  | loadTemplate
  | verifyIntegrity
  | replaceClips
  | saveProject
  | renderProject
deriving DecidableEq

/-- src/Davinci.py process_job, lines 204-253: load the template, run
the pre-flight integrity check, replace the clips, save, render; each
stage returning failure aborts the job before the next stage runs.
Returns the output path (None on failure) and the trace of stages that
were invoked. -/
def process_job (env : ResolveEnv) (clips : List (Nat × ClipRecord)) :
    Option String × List JobStep :=
  if !env.loadOk then (none, [JobStep.loadTemplate])
  else if !(verify_template_integrity env.verifyItems).1 then
    (none, [JobStep.loadTemplate, JobStep.verifyIntegrity])
  else if !(replace_clips_from_project env clips).success then
    (none, [JobStep.loadTemplate, JobStep.verifyIntegrity, JobStep.replaceClips])
  else if !env.saveOk then
    (none, [JobStep.loadTemplate, JobStep.verifyIntegrity, JobStep.replaceClips,
            JobStep.saveProject])
  else
    match env.renderResult with
    | none => (none, [JobStep.loadTemplate, JobStep.verifyIntegrity,
                      JobStep.replaceClips, JobStep.saveProject, JobStep.renderProject])
    | some p => (some p, [JobStep.loadTemplate, JobStep.verifyIntegrity,
                          JobStep.replaceClips, JobStep.saveProject, JobStep.renderProject])

/-- One step of the render-status handling of src/Davinci.py lines
1036-1060: a status dict whose JobStatus is Complete yields the output
path; Failed or Cancelled raises, which the enclosing handler (lines
1069-1071) converts into returning False for the whole render, so no
output path is produced; any other status keeps polling. -/
structure RenderStatus where
  jobStatus : String
  errorMsg : Option String
  completionPercentage : Nat
deriving DecidableEq

/-- Outcome of examining one render status. -/
inductive PollStep
  | finished (path : Option String)
  | keepPolling
deriving DecidableEq

/-- The JobStatus dispatch of src/Davinci.py lines 1036-1054. -/
def process_render_status (outputPath : String) (status : RenderStatus) : PollStep :=
  if status.jobStatus = "Complete" then .finished (some outputPath)
  else if status.jobStatus = "Failed" then .finished none
  else if status.jobStatus = "Cancelled" then .finished none
  else .keepPolling

/-- Outcome of one pass of the output-file completion heuristic. -/
inductive FileCheck
  | inProgress
  | stillGrowing
  | complete
  | tooOld
deriving DecidableEq

/-- The output-file heuristic of src/Davinci.py lines 978-1016, used
when no render status query is available, for a file that exists:
a file under 1,000,000 bytes is still being created (lines 989-991);
a file that grew across the two-second recheck is still being written
(lines 994-1000); otherwise the file is accepted as this job render
output only when its age is under 30 seconds (lines 1003-1016).
file_size is the first stat, new_file_size the stat after the recheck
sleep, file_age the seconds since mtime measured at the first stat. -/
def check_output_file (file_size new_file_size : Nat) (file_age : ℚ) : FileCheck :=
  if file_size < 1000000 then .inProgress
  else if new_file_size > file_size then .stillGrowing
  else if file_age < 30 then .complete
  else .tooOld

/-! Concrete builders used to instantiate the model on sample inputs. -/

/-- A timeline item with the given span and no replacement capability. -/
def plainItem (s e : Int) : TimelineItem :=
  { getStart := some s, getEnd := some e
    hasReplaceClip := false, replaceClipResult := false
    hasAddTake := false, addTakeResult := false
    hasSelectTakeByIndex := false, selectTakeByIndexResult := false
    getMediaPoolItem := none }

/-- A timeline item with the given span whose ReplaceClip succeeds. -/
def replaceableItem (s e : Int) : TimelineItem :=
  { getStart := some s, getEnd := some e
    hasReplaceClip := true, replaceClipResult := true
    hasAddTake := false, addTakeResult := false
    hasSelectTakeByIndex := false, selectTakeByIndexResult := false
    getMediaPoolItem := none }

/-- A template timeline holding a capability-free item at every expected
start frame, as the intact template would. -/
def templateItems : List TimelineItem :=
  CLIP_POSITIONS.map (fun p => plainItem p.2.start_frame (p.2.start_frame + 10))

/-- A one-slot job for slot 1. -/
def jobClipsSlot1 : List (Nat × ClipRecord) :=
  [(1, { filename := "a.mp4", fullPath := "/c/a.mp4" })]

/-- A one-slot job for slot 15, which has no CLIP_POSITIONS entry. -/
def jobClipsSlot15 : List (Nat × ClipRecord) :=
  [(15, { filename := "x.mp4", fullPath := "/c/x.mp4" })]

/-- An environment where every file exists and imports, the template is
intact, but the resolved timeline item has no working replacement
capability, so every replacement attempt fails. -/
def envReplaceFails : ResolveEnv :=
  { fsExists := fun _ => true, importOk := fun _ => true
    fetchTimeline := fun _ _ => [plainItem 86485 86495]
    verifyItems := templateItems
    loadOk := true, saveOk := true, renderResult := some "/out/video.mp4" }

/-- A two-slot job where slot 1 media will be missing on disk. -/
def jobClipsMissingOne : List (Nat × ClipRecord) :=
  [(1, { filename := "one.mp4", fullPath := "/c/one.mp4" }),
   (2, { filename := "two.mp4", fullPath := "/c/two.mp4" })]

/-- An environment where only slot 2 media exists on disk, the template
is intact, and the live item at slot 2 frame is replaceable. -/
def envMissingOne : ResolveEnv :=
  { fsExists := fun s => s == "/c/two.mp4", importOk := fun _ => true
    fetchTimeline := fun _ _ => [replaceableItem 86549 86560]
    verifyItems := templateItems
    loadOk := true, saveOk := true, renderResult := some "/out/video.mp4" }

/-! Helper lemmas shared between the claim theorems. -/

/-- importClips reads the environment only through fsExists and importOk. -/
lemma importClips_congr (env env' : ResolveEnv)
    (hfs : env'.fsExists = env.fsExists) (him : env'.importOk = env.importOk) :
    ∀ clips, importClips env' clips = importClips env clips := by
  intro clips
  induction clips with
  | nil => rfl
  | cons p rest ih =>
    cases p with
    | mk slot clip => simp [importClips, hfs, him, ih]

/-- importClips is the filter keeping slots whose file exists and imports. -/
lemma importClips_eq_filter (env : ResolveEnv) :
    ∀ clips, importClips env clips
      = clips.filter (fun p => env.fsExists p.2.fullPath && env.importOk p.2.fullPath) := by
  intro clips
  induction clips with
  | nil => rfl
  | cons p rest ih =>
    cases p with
    | mk slot clip =>
      by_cases h1 : env.fsExists clip.fullPath
      · by_cases h2 : env.importOk clip.fullPath
        · simp [importClips, h1, h2, ih, List.filter]
        · simp [importClips, h1, h2, ih, List.filter]
      · simp [importClips, h1, ih, List.filter]

/-- importClips distributes over list concatenation. -/
lemma importClips_append (env : ResolveEnv) :
    ∀ l1 l2, importClips env (l1 ++ l2) = importClips env l1 ++ importClips env l2 := by
  intro l1 l2
  induction l1 with
  | nil => rfl
  | cons p rest ih =>
    cases p with
    | mk slot clip =>
      by_cases h1 : env.fsExists clip.fullPath
      · by_cases h2 : env.importOk clip.fullPath
        · simp [importClips, h1, h2, ih]
        · simp [importClips, h1, h2, ih]
      · simp [importClips, h1, ih]

/-- The replacement loop visits every media item, in order: the trace of
slots examined equals the media-item key list. -/
lemma replaceLoop_trace (fetch : Nat → Int → List TimelineItem) :
    ∀ k media, (replaceLoop fetch k media).map outcomeSlot = media.map (fun p => p.1) := by
  intro k media
  induction media generalizing k with
  | nil => rfl
  | cons p rest ih =>
    cases p with
    | mk slot clip =>
      cases hpos : lookupPosition slot with
      | none => simp [replaceLoop, hpos, outcomeSlot, ih]
      | some pos =>
        cases htgt : findTargetItem pos.start_frame (fetch k pos.track) with
        | none => simp [replaceLoop, hpos, htgt, outcomeSlot, ih]
        | some item =>
          by_cases hrep : (attemptStrategies item).replaced
          · simp [replaceLoop, hpos, htgt, hrep, outcomeSlot, ih]
          · simp [replaceLoop, hpos, htgt, hrep, outcomeSlot, ih]

/-- The loop reads the fetch oracle only at indices at or above its
starting counter: any two oracles agreeing there give the same outcomes. -/
lemma replaceLoop_congr (f g : Nat → Int → List TimelineItem) :
    ∀ k media, (∀ n t, k ≤ n → f n t = g n t) →
      replaceLoop f k media = replaceLoop g k media := by
  intro k media
  induction media generalizing k with
  | nil => intro _; rfl
  | cons p rest ih =>
    intro hag
    cases p with
    | mk slot clip =>
      cases hpos : lookupPosition slot with
      | none => simp [replaceLoop, hpos]; exact ih k hag
      | some pos =>
        have hk : f k pos.track = g k pos.track := hag k pos.track (le_refl k)
        have hrest : ∀ n t, k + 1 ≤ n → f n t = g n t := by
          intro n t hn
          exact hag n t (le_trans (Nat.le_succ k) hn)
        cases htgt : findTargetItem pos.start_frame (g k pos.track) with
        | none => simp [replaceLoop, hpos, hk, htgt]; exact ih (k + 1) hrest
        | some item =>
          by_cases hrep : (attemptStrategies item).replaced
          · simp [replaceLoop, hpos, hk, htgt, hrep]; exact ih (k + 1) hrest
          · simp [replaceLoop, hpos, hk, htgt, hrep]; exact ih (k + 1) hrest

/-- Every slot the loop reports replaced has an entry in CLIP_POSITIONS. -/
lemma mem_replacedSlots_isSome (fetch : Nat → Int → List TimelineItem) :
    ∀ k media s, s ∈ replacedSlots (replaceLoop fetch k media) →
      (lookupPosition s).isSome := by
  intro k media
  induction media generalizing k with
  | nil => intro s hs; simp [replaceLoop, replacedSlots] at hs
  | cons p rest ih =>
    intro s hs
    cases p with
    | mk slot clip =>
      cases hpos : lookupPosition slot with
      | none =>
        simp [replaceLoop, hpos, replacedSlots] at hs
        exact ih k s (by simpa [replacedSlots] using hs)
      | some pos =>
        cases htgt : findTargetItem pos.start_frame (fetch k pos.track) with
        | none =>
          simp [replaceLoop, hpos, htgt, replacedSlots] at hs
          exact ih (k + 1) s (by simpa [replacedSlots] using hs)
        | some item =>
          by_cases hrep : (attemptStrategies item).replaced
          · simp [replaceLoop, hpos, htgt, hrep, replacedSlots] at hs
            cases hs with
            | inl h => rw [h, hpos]; rfl
            | inr h => exact ih (k + 1) s (by simpa [replacedSlots] using h)
          · simp [replaceLoop, hpos, htgt, hrep, replacedSlots] at hs
            exact ih (k + 1) s (by simpa [replacedSlots] using hs)

/-- The loop replaces at most as many slots as there are media items with
a configured position. -/
lemma replacedSlots_length_le (fetch : Nat → Int → List TimelineItem) :
    ∀ k media, (replacedSlots (replaceLoop fetch k media)).length
      ≤ (media.filter (fun p => (lookupPosition p.1).isSome)).length := by
  intro k media
  induction media generalizing k with
  | nil => simp [replaceLoop, replacedSlots]
  | cons p rest ih =>
    cases p with
    | mk slot clip =>
      cases hpos : lookupPosition slot with
      | none =>
        simp [replaceLoop, hpos, replacedSlots, List.filter]
        exact ih k
      | some pos =>
        have hkeep : (lookupPosition slot).isSome = true := by rw [hpos]; rfl
        cases htgt : findTargetItem pos.start_frame (fetch k pos.track) with
        | none =>
          simp [replaceLoop, hpos, htgt, replacedSlots, List.filter, hkeep]
          exact le_trans (ih (k + 1)) (Nat.le_succ _)
        | some item =>
          by_cases hrep : (attemptStrategies item).replaced
          · simp [replaceLoop, hpos, htgt, hrep, replacedSlots, List.filter, hkeep]
            exact ih (k + 1)
          · simp [replaceLoop, hpos, htgt, hrep, replacedSlots, List.filter, hkeep]
            exact le_trans (ih (k + 1)) (Nat.le_succ _)

/-- Dropping an element a filter rejects makes the filtered list strictly
shorter than the original. -/
lemma filter_length_lt {α : Type} (p : α → Bool) :
    ∀ (l : List α) (x : α), x ∈ l → p x = false → (l.filter p).length < l.length := by
  intro l
  induction l with
  | nil => intro x hx; simp at hx
  | cons a rest ih =>
    intro x hx hpx
    cases hx with
    | head =>
      simp [List.filter, hpx]
      exact Nat.lt_succ_of_le (List.length_filter_le _ _)
    | tail _ hmem =>
      by_cases ha : p a
      · simp [List.filter, ha]
        exact ih x hmem hpx
      · simp [List.filter, ha]
        exact Nat.lt_succ_of_le (le_of_lt (ih x hmem hpx))

/-- When the gate fails, process_job aborts the job and the save and
render stages are never invoked. -/
lemma replace_failure_aborts (env : ResolveEnv) (clips : List (Nat × ClipRecord))
    (hfail : (replace_clips_from_project env clips).success = false) :
    (process_job env clips).1 = none
    ∧ JobStep.saveProject ∉ (process_job env clips).2
    ∧ JobStep.renderProject ∉ (process_job env clips).2 := by
  unfold process_job
  by_cases hl : env.loadOk
  · by_cases hv : (verify_template_integrity env.verifyItems).1
    · simp [hl, hv, hfail]
    · simp [hl, hv]
  · simp [hl]

/-- C8: if during render polling the external system reports the render
job status as Failed or Cancelled, the render drive treats this as fatal
and returns failure, never an output path; and a failed render makes the
whole job fail. -/
theorem render_failed_or_cancelled_is_fatal :
    (∀ (p : String) (s : RenderStatus),
      s.jobStatus = "Failed" ∨ s.jobStatus = "Cancelled" →
        process_render_status p s = PollStep.finished none
        ∧ ∀ out, process_render_status p s ≠ PollStep.finished (some out))
    ∧ (∀ env clips, env.renderResult = none → (process_job env clips).1 = none) := by
  constructor
  · intro p s h
    have hps : process_render_status p s = PollStep.finished none := by
      cases h with
      | inl h => simp [process_render_status, h]
      | inr h => simp [process_render_status, h]
    refine ⟨hps, fun out hout => ?_⟩
    rw [hps] at hout
    simp at hout
  · intro env clips h
    unfold process_job
    by_cases hl : env.loadOk
    · by_cases hv : (verify_template_integrity env.verifyItems).1
      · by_cases hr : (replace_clips_from_project env clips).success
        · by_cases hs : env.saveOk
          · simp [hl, hv, hr, hs, h]
          · simp [hl, hv, hr, hs]
        · simp [hl, hv, hr]
      · simp [hl, hv]
    · simp [hl]

/-- C8 witness: at a concrete Failed status and a concrete environment
whose render produced no path, the theorem applies. -/
theorem render_failed_or_cancelled_is_fatal_witness :
    process_render_status "/out/v.mp4"
        { jobStatus := "Failed", errorMsg := some "disk full", completionPercentage := 40 }
      = PollStep.finished none
    ∧ (process_job
        { fsExists := fun _ => true, importOk := fun _ => true
          fetchTimeline := fun _ _ => [], verifyItems := templateItems
          loadOk := true, saveOk := true, renderResult := none } []).1 = none := by
  refine ⟨?_, ?_⟩
  · exact (render_failed_or_cancelled_is_fatal.1 "/out/v.mp4"
      { jobStatus := "Failed", errorMsg := some "disk full", completionPercentage := 40 }
      (Or.inl rfl)).1
  · exact render_failed_or_cancelled_is_fatal.2
      { fsExists := fun _ => true, importOk := fun _ => true
        fetchTimeline := fun _ _ => [], verifyItems := templateItems
        loadOk := true, saveOk := true, renderResult := none } [] rfl

/-- C9: the output-file completion heuristic reports a file below the
minimum size threshold as not yet complete; reports complete for a file
at or above the threshold whose size did not grow across the re-check
and whose age is under the 30 second staleness bound; and never accepts
a file whose age is at or beyond the staleness bound. -/
theorem output_file_heuristic_correct :
    ∀ (s s' : Nat) (a : ℚ),
      (s < 1000000 → check_output_file s s' a = FileCheck.inProgress)
      ∧ (1000000 ≤ s → s' = s → a < 30 → check_output_file s s' a = FileCheck.complete)
      ∧ (30 ≤ a → check_output_file s s' a ≠ FileCheck.complete) := by
  intro s s' a
  refine ⟨?_, ?_, ?_⟩
  · intro h; simp [check_output_file, h]
  · intro hs hgrow ha
    have h1 : ¬ s < 1000000 := by omega
    have h2 : ¬ s' > s := by omega
    simp [check_output_file, h1, h2, ha]
  · intro ha
    have h3 : ¬ a < 30 := not_lt.mpr ha
    unfold check_output_file
    by_cases h1 : s < 1000000
    · simp [h1]
    · by_cases h2 : s' > s
      · simp [h1, h2]
      · simp [h1, h2, h3]

/-- C9 witness: a 500-byte file is in progress; a stable 2,000,000-byte
file of age 5 seconds is complete; a file of age 100 seconds is never
reported complete. -/
theorem output_file_heuristic_correct_witness :
    check_output_file 500 500 (5 : ℚ) = FileCheck.inProgress
    ∧ check_output_file 2000000 2000000 (5 : ℚ) = FileCheck.complete
    ∧ check_output_file 2000000 2000000 (100 : ℚ) ≠ FileCheck.complete := by
  refine ⟨?_, ?_, ?_⟩
  · exact (output_file_heuristic_correct 500 500 5).1 (by decide)
  · exact (output_file_heuristic_correct 2000000 2000000 5).2.1 (by decide) rfl (by norm_num)
  · exact (output_file_heuristic_correct 2000000 2000000 100).2.2 (by norm_num)

/-- C5 counterexample: a timeline state with both an exactly matching
item (start 100) and a merely containing item (span 90 to 110, earlier
in the list): the scan selects the containing item, not the exact one,
refuting exact-match priority. -/
theorem exact_match_priority_counterexample :
    plainItem 100 120 ∈ [plainItem 90 110, plainItem 100 120]
    ∧ (plainItem 100 120).getStart = some 100
    ∧ itemMatches 100 (plainItem 90 110) = true
    ∧ (plainItem 90 110).getStart ≠ some 100
    ∧ findTargetItem 100 [plainItem 90 110, plainItem 100 120]
        = some (plainItem 90 110) := by
  decide

/-- C5 amended: an item is selected when its start equals the expected
frame or it contains it (itemStart ≤ frame < itemEnd), and the selected
item is the first item in live list order satisfying that disjunction;
when both an exactly matching and a merely containing item exist, the
earlier one in the list wins, so exact match has no priority. -/
theorem target_selection_first_match :
    ∀ (frame : Int) (items : List TimelineItem),
      findTargetItem frame items = items.find? (itemMatches frame)
      ∧ ∀ it, findTargetItem frame items = some it →
          itemMatches frame it = true
          ∧ (it.getStart = some frame
             ∨ ∃ s e, it.getStart = some s ∧ it.getEnd = some e
                 ∧ s ≤ frame ∧ frame < e) := by
  intro frame items
  constructor
  · induction items with
    | nil => rfl
    | cons a rest ih =>
      by_cases h : itemMatches frame a
      · simp [findTargetItem, List.find?, h]
      · simp [findTargetItem, List.find?, h, ih]
  · intro it hit
    have hmatch : itemMatches frame it = true := by
      induction items with
      | nil => exact absurd hit (by simp [findTargetItem])
      | cons a rest ih =>
        by_cases h : itemMatches frame a
        · simp [findTargetItem, h] at hit
          rw [← hit]; exact h
        · simp [findTargetItem, h] at hit
          exact ih hit
    refine ⟨hmatch, ?_⟩
    have hshape : ∃ s e, it.getStart = some s ∧ it.getEnd = some e
        ∧ (s = frame ∨ (s ≤ frame ∧ frame < e)) := by
      unfold itemMatches at hmatch
      rcases it with ⟨gs, ge, c1, c2, c3, c4, c5, c6, c7⟩
      cases gs with
      | none => simp at hmatch
      | some s =>
        cases ge with
        | none => simp at hmatch
        | some e =>
          simp at hmatch
          exact ⟨s, e, rfl, rfl, hmatch⟩
    obtain ⟨s, e, hs, he, hcase⟩ := hshape
    cases hcase with
    | inl h => left; rw [hs, h]
    | inr h => right; exact ⟨s, e, hs, he, h.1, h.2⟩

/-- C5 witness: on the concrete two-item list the theorem applies: the
selection equals the first matching item and the selected item matches
by containment. -/
theorem target_selection_first_match_witness :
    findTargetItem 100 [plainItem 90 110, plainItem 100 120]
      = List.find? (itemMatches 100) [plainItem 90 110, plainItem 100 120]
    ∧ itemMatches 100 (plainItem 90 110) = true := by
  refine ⟨(target_selection_first_match 100 [plainItem 90 110, plainItem 100 120]).1, ?_⟩
  exact ((target_selection_first_match 100 [plainItem 90 110, plainItem 100 120]).2
    (plainItem 90 110) (by decide)).1

/-- C4 counterexample: a slot whose resolved item has no working
Method 1 or Method 2 and whose pool asset is shared with other slots:
the source-swap strategy is executed anyway, refuting the claim that it
is only attempted for slot-exclusive assets. -/
theorem source_swap_exclusivity_counterexample :
    (({ getStart := some 86485, getEnd := some 86495
        hasReplaceClip := false, replaceClipResult := false
        hasAddTake := false, addTakeResult := false
        hasSelectTakeByIndex := false, selectTakeByIndexResult := false
        getMediaPoolItem := some { hasReplaceClip := true, replaceClipResult := true
                                   hasSetClipProperty := false, setClipPropertyResult := false
                                   usedByOtherSlots := true } } : TimelineItem).getMediaPoolItem.map
        MediaPoolItem.usedByOtherSlots = some true)
    ∧ sourceSwapAttempted
        { getStart := some 86485, getEnd := some 86495
          hasReplaceClip := false, replaceClipResult := false
          hasAddTake := false, addTakeResult := false
          hasSelectTakeByIndex := false, selectTakeByIndexResult := false
          getMediaPoolItem := some { hasReplaceClip := true, replaceClipResult := true
                                     hasSetClipProperty := false, setClipPropertyResult := false
                                     usedByOtherSlots := true } } = true
    ∧ Strategy.sourceSwap ∈ (attemptStrategies
        { getStart := some 86485, getEnd := some 86495
          hasReplaceClip := false, replaceClipResult := false
          hasAddTake := false, addTakeResult := false
          hasSelectTakeByIndex := false, selectTakeByIndexResult := false
          getMediaPoolItem := some { hasReplaceClip := true, replaceClipResult := true
                                     hasSetClipProperty := false, setClipPropertyResult := false
                                     usedByOtherSlots := true } }).attempted := by
  decide

/-- C4 amended: the source-swap fallback is executed exactly when the
earlier methods did not succeed and the resolved item yields a pool
asset exposing ReplaceClip or SetClipProperty; no exclusivity condition
appears, and the whole fallback chain is unchanged by flipping whether
the pool asset is shared with other slots. -/
theorem source_swap_unconditional :
    ∀ item : TimelineItem,
      (sourceSwapAttempted item
        = (!succeededM12 item
            && (match item.getMediaPoolItem with
                | some pm => pm.hasReplaceClip || pm.hasSetClipProperty
                | none => false)))
      ∧ ∀ pm b, item.getMediaPoolItem = some pm →
          attemptStrategies
              { item with getMediaPoolItem := some { pm with usedByOtherSlots := b } }
            = attemptStrategies item := by
  intro item
  constructor
  · rcases item with ⟨gs, ge, h1, r1, h2, r2, h3, r3, gmpi⟩
    cases gmpi with
    | none =>
      cases h1 <;> cases r1 <;> cases h2 <;> cases r2 <;> cases h3 <;> cases r3 <;> rfl
    | some pm =>
      rcases pm with ⟨p1, p2, p3, p4, p5⟩
      cases h1 <;> cases r1 <;> cases h2 <;> cases r2 <;> cases h3 <;> cases r3 <;>
        cases p1 <;> cases p2 <;> cases p3 <;> cases p4 <;> rfl
  · intro pm b hpm
    rcases item with ⟨gs, ge, h1, r1, h2, r2, h3, r3, gmpi⟩
    obtain rfl : gmpi = some pm := hpm
    rcases pm with ⟨p1, p2, p3, p4, p5⟩
    cases h1 <;> cases r1 <;> cases h2 <;> cases r2 <;> cases h3 <;> cases r3 <;> rfl

/-- C4 amended witness: at the concrete shared-asset item the theorem
applies: the swap is attempted and the chain ignores the sharing flag. -/
theorem source_swap_unconditional_witness :
    sourceSwapAttempted
        { getStart := some 86485, getEnd := some 86495
          hasReplaceClip := false, replaceClipResult := false
          hasAddTake := false, addTakeResult := false
          hasSelectTakeByIndex := false, selectTakeByIndexResult := false
          getMediaPoolItem := some { hasReplaceClip := true, replaceClipResult := true
                                     hasSetClipProperty := false, setClipPropertyResult := false
                                     usedByOtherSlots := false } } = true
    ∧ attemptStrategies
        { getStart := some 86485, getEnd := some 86495
          hasReplaceClip := false, replaceClipResult := false
          hasAddTake := false, addTakeResult := false
          hasSelectTakeByIndex := false, selectTakeByIndexResult := false
          getMediaPoolItem := some { hasReplaceClip := true, replaceClipResult := true
                                     hasSetClipProperty := false, setClipPropertyResult := false
                                     usedByOtherSlots := true } }
      = attemptStrategies
        { getStart := some 86485, getEnd := some 86495
          hasReplaceClip := false, replaceClipResult := false
          hasAddTake := false, addTakeResult := false
          hasSelectTakeByIndex := false, selectTakeByIndexResult := false
          getMediaPoolItem := some { hasReplaceClip := true, replaceClipResult := true
                                     hasSetClipProperty := false, setClipPropertyResult := false
                                     usedByOtherSlots := false } } := by
  constructor
  · rw [(source_swap_unconditional _).1]
    decide
  · exact (source_swap_unconditional
      { getStart := some 86485, getEnd := some 86495
        hasReplaceClip := false, replaceClipResult := false
        hasAddTake := false, addTakeResult := false
        hasSelectTakeByIndex := false, selectTakeByIndexResult := false
        getMediaPoolItem := some { hasReplaceClip := true, replaceClipResult := true
                                   hasSetClipProperty := false, setClipPropertyResult := false
                                   usedByOtherSlots := false } }).2
      { hasReplaceClip := true, replaceClipResult := true
        hasSetClipProperty := false, setClipPropertyResult := false
        usedByOtherSlots := false } true rfl

/-- C6: the replacement loop reads the live timeline only through the
per-slot fresh fetches: any oracle agreeing with the original on the
per-slot calls (indices 1 and above) yields the same outcomes, so the
pre-loop item list (fetch 0) is never reused for slot resolution; and
an item selected as a slot target always has non-null start and end,
so invalidated references are skipped, never dereferenced. -/
theorem fresh_scan_per_slot :
    (∀ (f g : Nat → Int → List TimelineItem) (k : Nat) (media : List (Nat × ClipRecord)),
      (∀ n t, k ≤ n → f n t = g n t) → replaceLoop f k media = replaceLoop g k media)
    ∧ (∀ (env env' : ResolveEnv) (clips : List (Nat × ClipRecord)),
        env'.fsExists = env.fsExists → env'.importOk = env.importOk →
        (∀ n t, 1 ≤ n → env'.fetchTimeline n t = env.fetchTimeline n t) →
        replace_clips_from_project env' clips = replace_clips_from_project env clips)
    ∧ (∀ (frame : Int) (items : List TimelineItem) (it : TimelineItem),
        findTargetItem frame items = some it →
        it.getStart.isSome ∧ it.getEnd.isSome) := by
  refine ⟨replaceLoop_congr, ?_, ?_⟩
  · intro env env' clips hfs him hfetch
    simp only [replace_clips_from_project]
    rw [importClips_congr env env' hfs him clips]
    rw [replaceLoop_congr env'.fetchTimeline env.fetchTimeline 1
      (importClips env clips) (fun n t hn => hfetch n t hn)]
  · intro frame items it hit
    induction items with
    | nil => exact absurd hit (by simp [findTargetItem])
    | cons a rest ih =>
      by_cases h : itemMatches frame a
      · simp [findTargetItem, h] at hit
        subst hit
        unfold itemMatches at h
        rcases a with ⟨gs, ge, c1, c2, c3, c4, c5, c6, c7⟩
        cases gs with
        | none => simp at h
        | some s =>
          cases ge with
          | none => simp at h
          | some e => exact ⟨rfl, rfl⟩
      · simp [findTargetItem, h] at hit
        exact ih hit

/-- C6 witness: two concrete oracles differing only in the pre-loop
fetch give identical outcomes, and a concrete selected target has
non-null start and end. -/
theorem fresh_scan_per_slot_witness :
    replaceLoop (fun n _ => if n == 0 then [plainItem 0 1] else [replaceableItem 86485 86495]) 1
        [(1, { filename := "a.mp4", fullPath := "/c/a.mp4" })]
      = replaceLoop (fun _ _ => [replaceableItem 86485 86495]) 1
        [(1, { filename := "a.mp4", fullPath := "/c/a.mp4" })]
    ∧ ((plainItem 86485 86495).getStart.isSome ∧ (plainItem 86485 86495).getEnd.isSome) := by
  constructor
  · exact fresh_scan_per_slot.1
      (fun n _ => if n == 0 then [plainItem 0 1] else [replaceableItem 86485 86495])
      (fun _ _ => [replaceableItem 86485 86495]) 1
      [(1, { filename := "a.mp4", fullPath := "/c/a.mp4" })]
      (fun n t hn => by
        cases n with
        | zero => exact absurd hn (by decide)
        | succ m => rfl)
  · exact fresh_scan_per_slot.2.2 86485
      [{ getStart := none, getEnd := none
         hasReplaceClip := false, replaceClipResult := false
         hasAddTake := false, addTakeResult := false
         hasSelectTakeByIndex := false, selectTakeByIndexResult := false
         getMediaPoolItem := none }, plainItem 86485 86495]
      (plainItem 86485 86495) (by decide)

/-- C7 counterexample: a job whose clips mapping lists slot 2 before
slot 1 (both with existing, importable media) is processed in file
order 2 then 1, not in ascending numeric order. -/
theorem ascending_order_counterexample :
    ((replace_clips_from_project
        { fsExists := fun _ => true, importOk := fun _ => true
          fetchTimeline := fun _ _ => [], verifyItems := templateItems
          loadOk := true, saveOk := true, renderResult := none }
        [(2, { filename := "b.mp4", fullPath := "/c/b.mp4" }),
         (1, { filename := "a.mp4", fullPath := "/c/a.mp4" })]).outcomes.map outcomeSlot
      = [2, 1])
    ∧ ¬ List.Sorted (· ≤ ·)
        ((replace_clips_from_project
          { fsExists := fun _ => true, importOk := fun _ => true
            fetchTimeline := fun _ _ => [], verifyItems := templateItems
            loadOk := true, saveOk := true, renderResult := none }
          [(2, { filename := "b.mp4", fullPath := "/c/b.mp4" }),
           (1, { filename := "a.mp4", fullPath := "/c/a.mp4" })]).outcomes.map outcomeSlot) := by
  constructor
  · rfl
  · intro hsorted
    rw [show ((replace_clips_from_project
        { fsExists := fun _ => true, importOk := fun _ => true
          fetchTimeline := fun _ _ => [], verifyItems := templateItems
          loadOk := true, saveOk := true, renderResult := none }
        [(2, { filename := "b.mp4", fullPath := "/c/b.mp4" }),
         (1, { filename := "a.mp4", fullPath := "/c/a.mp4" })]).outcomes.map outcomeSlot)
      = [2, 1] from rfl] at hsorted
    have : (2 : Nat) ≤ 1 := List.rel_of_sorted_cons hsorted 1 (by simp)
    omega

/-- C7 amended: during replacement the slots are processed in the order
the clips mapping lists them in the job file, restricted to slots whose
media file exists on disk and imported successfully; no numeric sorting
is applied. -/
theorem processing_order_is_job_order :
    ∀ (env : ResolveEnv) (clips : List (Nat × ClipRecord)),
      (replace_clips_from_project env clips).media_items
        = clips.filter (fun p => env.fsExists p.2.fullPath && env.importOk p.2.fullPath)
      ∧ (replace_clips_from_project env clips).outcomes.map outcomeSlot
        = (clips.filter (fun p => env.fsExists p.2.fullPath
            && env.importOk p.2.fullPath)).map (fun p => p.1) := by
  intro env clips
  constructor
  · exact importClips_eq_filter env clips
  · unfold replace_clips_from_project
    rw [replaceLoop_trace, importClips_eq_filter]

/-- When the replaced count is below the imported count, the gate of
lines 740-749 reports failure. -/
lemma gate_false_of_lt (env : ResolveEnv) (clips : List (Nat × ClipRecord))
    (h : (replacedSlots (replace_clips_from_project env clips).outcomes).length
      < (replace_clips_from_project env clips).media_items.length) :
    (replace_clips_from_project env clips).success = false := by
  simp only [replace_clips_from_project] at h ⊢
  simp [h]

/-- C1: whenever fewer slots are confirmed replaced than had media
imported for replacement, the replacement phase returns failure, the
job result is failure, and neither save nor render is ever invoked. -/
theorem incomplete_replacement_aborts :
    ∀ (env : ResolveEnv) (clips : List (Nat × ClipRecord)),
      (replacedSlots (replace_clips_from_project env clips).outcomes).length
          < (replace_clips_from_project env clips).media_items.length →
      (replace_clips_from_project env clips).success = false
      ∧ (process_job env clips).1 = none
      ∧ JobStep.saveProject ∉ (process_job env clips).2
      ∧ JobStep.renderProject ∉ (process_job env clips).2 := by
  intro env clips h
  have hfail := gate_false_of_lt env clips h
  exact ⟨hfail, replace_failure_aborts env clips hfail⟩

/-- C1 witness: a concrete job whose single slot cannot be replaced has
replaced count 0 below imported count 1, and the theorem applies: no
save, no render, job fails. -/
theorem incomplete_replacement_aborts_witness :
    ((replacedSlots (replace_clips_from_project envReplaceFails jobClipsSlot1).outcomes).length
        < (replace_clips_from_project envReplaceFails jobClipsSlot1).media_items.length)
    ∧ ((replace_clips_from_project envReplaceFails jobClipsSlot1).success = false
       ∧ (process_job envReplaceFails jobClipsSlot1).1 = none
       ∧ JobStep.saveProject ∉ (process_job envReplaceFails jobClipsSlot1).2
       ∧ JobStep.renderProject ∉ (process_job envReplaceFails jobClipsSlot1).2) := by
  constructor
  · decide
  · exact incomplete_replacement_aborts envReplaceFails jobClipsSlot1 (by decide)

/-- C10: a slot whose media was imported but which has no CLIP_POSITIONS
entry is never counted as replaced, so the gate fails the whole job and
neither save nor render is invoked. -/
theorem unknown_slot_fails_gate :
    ∀ (env : ResolveEnv) (clips : List (Nat × ClipRecord)) (slot : Nat) (rec : ClipRecord),
      (slot, rec) ∈ (replace_clips_from_project env clips).media_items →
      lookupPosition slot = none →
      slot ∉ replacedSlots (replace_clips_from_project env clips).outcomes
      ∧ (replace_clips_from_project env clips).success = false
      ∧ (process_job env clips).1 = none
      ∧ JobStep.saveProject ∉ (process_job env clips).2
      ∧ JobStep.renderProject ∉ (process_job env clips).2 := by
  intro env clips slot rec hmem hnone
  have hnot : slot ∉ replacedSlots (replace_clips_from_project env clips).outcomes := by
    intro hin
    have hsome := mem_replacedSlots_isSome env.fetchTimeline 1 (importClips env clips) slot hin
    rw [hnone] at hsome
    simp at hsome
  have hlt : (replacedSlots (replace_clips_from_project env clips).outcomes).length
      < (replace_clips_from_project env clips).media_items.length := by
    have h1 := replacedSlots_length_le env.fetchTimeline 1 (importClips env clips)
    have h2 : ((importClips env clips).filter
        (fun p => (lookupPosition p.1).isSome)).length < (importClips env clips).length :=
      filter_length_lt _ (importClips env clips) (slot, rec) hmem (by rw [hnone]; rfl)
    exact lt_of_le_of_lt h1 h2
  have hfail := gate_false_of_lt env clips hlt
  exact ⟨hnot, hfail, replace_failure_aborts env clips hfail⟩

/-- C10 witness: a concrete job for slot 15 (no CLIP_POSITIONS entry)
with existing, importable media: the theorem applies, the gate fails,
nothing is saved or rendered. -/
theorem unknown_slot_fails_gate_witness :
    ((15, ({ filename := "x.mp4", fullPath := "/c/x.mp4" } : ClipRecord))
        ∈ (replace_clips_from_project envReplaceFails jobClipsSlot15).media_items)
    ∧ (15 ∉ replacedSlots (replace_clips_from_project envReplaceFails jobClipsSlot15).outcomes
       ∧ (replace_clips_from_project envReplaceFails jobClipsSlot15).success = false
       ∧ (process_job envReplaceFails jobClipsSlot15).1 = none
       ∧ JobStep.saveProject ∉ (process_job envReplaceFails jobClipsSlot15).2
       ∧ JobStep.renderProject ∉ (process_job envReplaceFails jobClipsSlot15).2) := by
  constructor
  · decide
  · exact unknown_slot_fails_gate envReplaceFails jobClipsSlot15 15
      { filename := "x.mp4", fullPath := "/c/x.mp4" } (by decide) (by decide)

/-- C2 counterexample: a job requesting slots 1 and 2 where slot 1 media
does not exist on disk while slot 2 replaces fine: the Completion Gate
passes and the job saves and renders, refuting the claim that the job
later fails the gate. -/
theorem missing_media_gate_counterexample :
    envMissingOne.fsExists "/c/one.mp4" = false
    ∧ (1, ({ filename := "one.mp4", fullPath := "/c/one.mp4" } : ClipRecord))
        ∈ jobClipsMissingOne
    ∧ (replace_clips_from_project envMissingOne jobClipsMissingOne).success = true
    ∧ (process_job envMissingOne jobClipsMissingOne).1 = some "/out/video.mp4"
    ∧ JobStep.renderProject ∈ (process_job envMissingOne jobClipsMissingOne).2 := by
  decide

/-- C2 amended: in any job, at any position of the clips list, a slot
whose clip file does not exist on disk is skipped with a warning and
excluded from the imported media set; the remaining slots are processed
exactly as if the missing slot were absent from the job, so the
Completion Gate does not count the missing slot and the job does not
fail the gate on its account. -/
theorem missing_media_slot_skipped :
    ∀ (env : ResolveEnv) (pre rest : List (Nat × ClipRecord)) (slot : Nat) (rec : ClipRecord),
      env.fsExists rec.fullPath = false →
      (slot, rec) ∉ importClips env (pre ++ (slot, rec) :: rest)
      ∧ importClips env (pre ++ (slot, rec) :: rest) = importClips env (pre ++ rest)
      ∧ replace_clips_from_project env (pre ++ (slot, rec) :: rest)
          = replace_clips_from_project env (pre ++ rest)
      ∧ process_job env (pre ++ (slot, rec) :: rest) = process_job env (pre ++ rest) := by
  intro env pre rest slot rec h
  have h0 : (slot, rec) ∉ importClips env (pre ++ (slot, rec) :: rest) := by
    rw [importClips_eq_filter]
    intro hmem
    rw [List.mem_filter] at hmem
    have := (Bool.and_eq_true _ _).mp hmem.2
    rw [h] at this
    exact Bool.noConfusion this.1
  have h1 : importClips env (pre ++ (slot, rec) :: rest)
      = importClips env (pre ++ rest) := by
    rw [importClips_append, importClips_append]
    have hh : importClips env ((slot, rec) :: rest) = importClips env rest := by
      simp [importClips, h]
    rw [hh]
  have h2 : replace_clips_from_project env (pre ++ (slot, rec) :: rest)
      = replace_clips_from_project env (pre ++ rest) := by
    simp only [replace_clips_from_project, h1]
  have h3 : process_job env (pre ++ (slot, rec) :: rest)
      = process_job env (pre ++ rest) := by
    simp only [process_job, h2]
  exact ⟨h0, h1, h2, h3⟩

/-- C2 amended witness: at a concrete two-slot job listing slot 2 first
and then slot 1 with its media missing, the theorem applies: the job
behaves exactly like the one-slot job for slot 2. -/
theorem missing_media_slot_skipped_witness :
    envMissingOne.fsExists "/c/one.mp4" = false
    ∧ process_job envMissingOne
        [(2, { filename := "two.mp4", fullPath := "/c/two.mp4" }),
         (1, { filename := "one.mp4", fullPath := "/c/one.mp4" })]
        = process_job envMissingOne
            [(2, { filename := "two.mp4", fullPath := "/c/two.mp4" })] := by
  refine ⟨by decide, ?_⟩
  exact (missing_media_slot_skipped envMissingOne
    [(2, { filename := "two.mp4", fullPath := "/c/two.mp4" })] [] 1
    { filename := "one.mp4", fullPath := "/c/one.mp4" } (by decide)).2.2.2

/-- C3 counterexample: on an empty track the check fails (every expected
frame is absent) but its missing-slot log is empty, naming none of the
slots whose frames are missing, refuting the claim that the check logs
which slots map to the missing frames whenever it fails. -/
theorem template_integrity_logging_counterexample :
    (verify_template_integrity []).1 = false
    ∧ (1, (⟨3, 86485⟩ : SlotPosition)) ∈ CLIP_POSITIONS
    ∧ (86485 : Int) ∉ actual_frames ([] : List TimelineItem)
    ∧ 1 ∉ (verify_template_integrity []).2 := by
  decide

/-- C3 amended: the Template Integrity Check passes exactly when every
expected start frame from the static slot table is present on the
track, so it fails exactly when some expected frame is absent and extra
frames never cause a failure; whenever the track is non-empty, the
logged slot list names exactly the slots whose configured frame is
absent (on an empty track the check still fails but logs no per-slot
detail); and a failed check aborts the job before any import or
replacement work. -/
theorem template_integrity_check :
    ∀ items : List TimelineItem,
      ((verify_template_integrity items).1 = true
        ↔ expected_frames ⊆ actual_frames items)
      ∧ (items ≠ [] → ∀ slot, slot ∈ (verify_template_integrity items).2
          ↔ ∃ pos, (slot, pos) ∈ CLIP_POSITIONS
              ∧ pos.start_frame ∉ actual_frames items)
      ∧ (∀ (env : ResolveEnv) (clips : List (Nat × ClipRecord)),
          (verify_template_integrity env.verifyItems).1 = false →
          JobStep.replaceClips ∉ (process_job env clips).2) := by
  intro items
  refine ⟨?_, ?_, ?_⟩
  · by_cases hemp : items.isEmpty
    · have hil : items = [] := List.isEmpty_iff.mp hemp
      subst hil
      simp only [verify_template_integrity, List.isEmpty_nil, if_true]
      constructor
      · intro hfalse; exact absurd hfalse (by decide)
      · intro hsub
        exact absurd hsub (by decide)
    · by_cases hmiss : expected_frames \ actual_frames items = ∅
      · simp only [verify_template_integrity, hemp, if_false, hmiss, if_true]
        constructor
        · intro _; exact Finset.sdiff_eq_empty_iff_subset.mp hmiss
        · intro _; rfl
      · simp only [verify_template_integrity, hemp, if_false, hmiss]
        constructor
        · intro hfalse; exact absurd hfalse (by simp)
        · intro hsub
          exact absurd (Finset.sdiff_eq_empty_iff_subset.mpr hsub) hmiss
  · intro hne slot
    have hemp : items.isEmpty = false := by
      cases items with
      | nil => exact absurd rfl hne
      | cons a rest => rfl
    by_cases hmiss : expected_frames \ actual_frames items = ∅
    · simp only [verify_template_integrity, hemp, Bool.false_eq_true, if_false,
        hmiss, if_true]
      simp only [List.not_mem_nil, false_iff, not_exists]
      intro pos hpos
      have hin : pos.start_frame ∈ expected_frames := by
        unfold expected_frames
        rw [List.mem_toFinset, List.mem_map]
        exact ⟨(slot, pos), hpos.1, rfl⟩
      exact hpos.2 (Finset.sdiff_eq_empty_iff_subset.mp hmiss hin)
    · simp only [verify_template_integrity, hemp, Bool.false_eq_true, if_false,
        hmiss, if_false]
      rw [List.mem_filterMap]
      constructor
      · rintro ⟨p, hp, hif⟩
        by_cases hin : p.2.start_frame ∈ expected_frames \ actual_frames items
        · rw [if_pos hin] at hif
          have hps : p.1 = slot := Option.some.inj hif
          refine ⟨p.2, ?_, ?_⟩
          · rw [← hps]; exact hp
          · exact (Finset.mem_sdiff.mp hin).2
        · rw [if_neg hin] at hif
          exact absurd hif (by simp)
      · rintro ⟨pos, hpos, hnotin⟩
        refine ⟨(slot, pos), hpos, ?_⟩
        have hin : pos.start_frame ∈ expected_frames \ actual_frames items := by
          refine Finset.mem_sdiff.mpr ⟨?_, hnotin⟩
          unfold expected_frames
          rw [List.mem_toFinset, List.mem_map]
          exact ⟨(slot, pos), hpos, rfl⟩
        rw [if_pos hin]
  · intro env clips hfail
    unfold process_job
    by_cases hl : env.loadOk
    · simp [hl, hfail]
    · simp [hl]

/-- C3 amended witness: on a one-item track missing the slot 2 frame
the check fails and logs slot 2; on the intact template track it
passes. -/
theorem template_integrity_check_witness :
    (verify_template_integrity [plainItem 86485 86495]).1 = false
    ∧ 2 ∈ (verify_template_integrity [plainItem 86485 86495]).2
    ∧ (verify_template_integrity templateItems).1 = true := by
  refine ⟨?_, ?_, ?_⟩
  · cases hval : (verify_template_integrity [plainItem 86485 86495]).1 with
    | false => rfl
    | true =>
      exact absurd ((template_integrity_check [plainItem 86485 86495]).1.mp hval)
        (by decide)
  · exact ((template_integrity_check [plainItem 86485 86495]).2.1 (by decide) 2).mpr
      ⟨⟨3, 86549⟩, by decide, by decide⟩
  · exact (template_integrity_check templateItems).1.mpr (by decide)
